import Mathlib

/-!
# Verification of the image-editing Lambda handler

Shallow embedding of `src/backend/src/lambda_function.py` (`lambda_handler`).

Modelling conventions:
* Python/JSON values are the inductive `Json`; the incoming Lambda event is an
  association list `List (String × Json)` (the runtime always passes a dict).
* Python exceptions are `PyError`; an exception that escapes the handler
  uncaught shows up as `Except.error` in the handler's outcome.
* External collaborators whose sources are not part of the repository snapshot
  (`json.loads`, `titan_handler.prepare_titan_request`, the Bedrock client,
  `utils.log_to_dynamodb`) are oracles carried by the environment `Env`; the
  `utils` helpers with spec-documented behaviour (`get_cors_headers`,
  `calculate_base64_size`, `calculate_output_images_size`) are modelled from
  the spec, see their doc comments.
* Each `time.time()` call site in the source gets its own named clock reading
  in `Env` (in milliseconds), mirroring the fact that each call site reads the
  clock once.
* The audit records written by `log_to_dynamodb` are collected in the result;
  a raising logger call (per call site, `Env.logRaise*`) writes nothing.
-/

/-- JSON-ish Python values as they appear in the handler. -/
inductive Json where
  | null : Json
  | bool : Bool → Json
  | num : Int → Json
  | str : String → Json
  | arr : List Json → Json
  | obj : List (String × Json) → Json

/-- Python exceptions that the handler's `except` arms distinguish. -/
inductive PyError where
  | keyError : String → PyError
  | indexError : String → PyError
  | typeError : String → PyError
  | attributeError : String → PyError
  | raised : String → PyError

/-- Exceptions raised by `json.loads`; the handler distinguishes
`json.JSONDecodeError` (line 67) from any other exception (line 75). -/
inductive JsonErr where
  | decodeError : String → JsonErr
  | otherError : String → JsonErr

/-- Python's `str(e)` for the exceptions above; `str(KeyError(k))` renders the
key quoted. -/
def pyErrStr : PyError → String
  | .keyError k => "'" ++ k ++ "'"
  | .indexError m => m
  | .typeError m => m
  | .attributeError m => m
  | .raised m => m

/-- The Python type name of a value, as used in exception messages. -/
def pyTypeName : Json → String
  | .null => "NoneType"
  | .bool _ => "bool"
  | .num _ => "int"
  | .str _ => "str"
  | .arr _ => "list"
  | .obj _ => "dict"

/-- `repr(type(v))`, as interpolated at line 64 of the source. -/
def pyTypeRepr (v : Json) : String :=
  "<class '" ++ pyTypeName v ++ "'>"

/-- Dictionary lookup on the association-list encoding of a Python dict. -/
def lookupKV (kvs : List (String × Json)) (k : String) : Option Json :=
  (kvs.find? (fun kv => kv.1 == k)).map (fun kv => kv.2)

/-- Python `d.get(k, default)` on a dict. -/
def dictGet (kvs : List (String × Json)) (k : String) (d : Json) : Json :=
  (lookupKV kvs k).getD d

/-- Python subscript `v[k]` with a string key: dict lookup (raising `KeyError`
when absent), `TypeError` on every non-dict value. -/
def pyGetItem (v : Json) (k : String) : Except PyError Json :=
  match v with
  | .obj kvs =>
    match lookupKV kvs k with
    | some x => .ok x
    | none => .error (.keyError k)
  | .arr _ => .error (.typeError "list indices must be integers or slices, not str")
  | .str _ => .error (.typeError "string indices must be integers")
  | .num _ => .error (.typeError "'int' object is not subscriptable")
  | .bool _ => .error (.typeError "'bool' object is not subscriptable")
  | .null => .error (.typeError "'NoneType' object is not subscriptable")

/-- Python `"," in v`: substring test on strings (a single-character needle, so
character membership), element equality on lists, key membership on dicts,
`TypeError` on non-iterables. -/
def pyInComma (v : Json) : Except PyError Bool :=
  match v with
  | .str s => .ok (s.toList.contains ',')
  | .arr xs => .ok (xs.any (fun x => match x with | .str t => t == "," | _ => false))
  | .obj kvs => .ok (kvs.any (fun kv => kv.1 == ","))
  | .num _ => .error (.typeError "argument of type 'int' is not iterable")
  | .bool _ => .error (.typeError "argument of type 'bool' is not iterable")
  | .null => .error (.typeError "argument of type 'NoneType' is not iterable")

/-- Python `s.split(",")` on the character list of a string: `""` splits to
`[""]`, every comma opens a new segment. -/
def pySplitComma : List Char → List (List Char)
  | [] => [[]]
  | c :: rest =>
    match pySplitComma rest with
    | h :: t => if c = ',' then [] :: h :: t else (c :: h) :: t
    | [] => [[c]]

/-- Python `s.lower()` on a string: lower-case character by character. -/
def strLower (s : String) : String :=
  String.mk (s.toList.map Char.toLower)

/-- Python `v.lower()`: defined on strings, `AttributeError` otherwise. -/
def pyLower (v : Json) : Except PyError String :=
  match v with
  | .str s => .ok (strLower s)
  | _ => .error (.attributeError ("'" ++ pyTypeName v ++ "' object has no attribute 'lower'"))

/-- Python `v.get(k)` (single-argument dict get, default `None`):
`AttributeError` on non-dicts. Used on the parsed Bedrock response body,
line 211 of the source. -/
def pyGetMethod (v : Json) (k : String) : Except PyError Json :=
  match v with
  | .obj kvs => .ok (dictGet kvs k .null)
  | _ => .error (.attributeError ("'" ++ pyTypeName v ++ "' object has no attribute 'get'"))

/-- `str(body.keys())`, interpolated into the `KeyError` response at line 121. -/
def keysRepr (kvs : List (String × Json)) : String :=
  "dict_keys([" ++ String.intercalate ", " (kvs.map (fun kv => "'" ++ kv.1 ++ "'")) ++ "])"

/-- `list(body.keys())` as a JSON list, used in diagnostic response fields. -/
def keysJson (kvs : List (String × Json)) : Json :=
  .arr (kvs.map (fun kv => Json.str kv.1))

/-- Modelled from the spec: `get_cors_headers` lives in `utils`, whose source is
not in the repository snapshot; §6 only requires CORS-permitting headers. -/
def get_cors_headers : List (String × String) :=
  [("Access-Control-Allow-Origin", "*")]

/-- Modelled from the spec: `calculate_base64_size` lives in `utils`, whose
source is not in the repository snapshot. §4.1/§9: the decoded byte length of a
base64 string via the closed form `3*len/4 - paddingChars`, best-effort (total,
0) on non-string inputs. -/
def calculate_base64_size (v : Json) : Nat :=
  match v with
  | .str s => 3 * s.length / 4 - (s.toList.filter (fun c => c = '=')).length
  | _ => 0

/-- Modelled from the spec: `calculate_output_images_size` lives in `utils`,
whose source is not in the repository snapshot. §4.1: sums the per-item
estimates of a list of base64 outputs and returns 0 for null/empty input. -/
def calculate_output_images_size (images : Json) : Nat :=
  match images with
  | .arr xs => (xs.map calculate_base64_size).sum
  | _ => 0

/-- Lines 105/114 of the source, applied to `mask` and `base_image` alike:
`v.split(",")[1] if "," in v else v`. The condition is evaluated first; the
split and the index are only reached when the membership test succeeded. -/
def stripDataUri (v : Json) : Except PyError Json :=
  match pyInComma v with
  | .error e => .error e
  | .ok c =>
    if c then
      match v with
      | .str s =>
        match pySplitComma s.toList with
        | _ :: x :: _ => .ok (.str (String.mk x))
        | _ => .error (.indexError "list index out of range")
      | .arr _ => .error (.attributeError "'list' object has no attribute 'split'")
      | .obj _ => .error (.attributeError "'dict' object has no attribute 'split'")
      | _ => .error (.attributeError "object has no attribute 'split'")
    else
      .ok v

/-- One audit record, the arguments of a `log_to_dynamodb` call. -/
structure AuditRecord where
  requestId : String
  modelId : String
  prompt : Json
  mode : Json
  imageSize : Nat
  maskSize : Nat
  outputSize : Nat
  generationTimeMs : Nat
  success : Bool
  errorMessage : Option String

/-- The handler's return value before `json.dumps`: status, headers, body. -/
structure Response where
  statusCode : Nat
  headers : List (String × String)
  body : Json

/-- Result of one handler invocation: the returned response (or the uncaught
exception that escaped) together with the audit records durably written. -/
structure HResult where
  outcome : Except PyError Response
  records : List AuditRecord

/-- Per-invocation environment: request id, the clock reading of each
`time.time()` call site (milliseconds), and the outcome of each external call.
`logRaise⟨line⟩ = some m` means the `log_to_dynamodb` call at that source line
raises an exception with message `m` and writes nothing; `none` means it writes
the record and returns. -/
structure Env where
  requestId : String
  tStart : Nat
  tModelFail : Nat
  tBuildFail : Nat
  tBedrockStart : Nat
  tSuccess : Nat
  tFail : Nat
  jsonLoads : String → Except JsonErr Json
  prepareTitan : Json → Json → Json → Json → Except String String
  bedrock : String → String → Except String Json
  logRaise150 : Option String
  logRaise175 : Option String
  logRaise217 : Option String
  logRaise246 : Option String

/-- Lines 44–81: locate and parse the request body. Every exception in this
span is caught ( `json.JSONDecodeError` at 67, everything else at 75), so the
stage totally yields either an early error `Response` or the parsed body. -/
def parseBody (env : Env) (event : List (String × Json)) : Sum Response Json :=
  match lookupKV event "body" with
  | none =>
    .inl ⟨400, get_cors_headers,
      .obj [("error", .str "Missing body in request"), ("event_keys", keysJson event)]⟩
  | some bodyVal =>
    match bodyVal with
    | .obj kvs => .inr (.obj kvs)
    | .str s =>
      match env.jsonLoads s with
      | .ok j => .inr j
      | .error (.decodeError m) =>
        .inl ⟨400, get_cors_headers, .obj [("error", .str ("Invalid JSON in request body: " ++ m))]⟩
      | .error (.otherError m) =>
        .inl ⟨400, get_cors_headers, .obj [("error", .str ("Error parsing request body: " ++ m))]⟩
    | v =>
      .inl ⟨400, get_cors_headers, .obj [("error", .str ("Invalid body type: " ++ pyTypeRepr v))]⟩

/-- Lines 85–115 run under the `try` of line 84: presence checks with explicit
400 returns, nested field access and data-URI stripping whose exceptions bubble
to the `except` arms (117–136). A Python membership test followed by a
subscript on an unchanged dict is a single lookup here. The raw `mask` and
`base_image` values are returned as well, because lines 143–144 re-read them
from the (unmutated) dict. -/
def getParams (kvs : List (String × Json)) :
    Except PyError (Sum Response (Json × Json × Json × Json × Json × Json)) :=
  match lookupKV kvs "prompt" with
  | none =>
    .ok (.inl ⟨400, get_cors_headers,
      .obj [("error", .str "Missing \"prompt\" field"), ("received_keys", keysJson kvs)]⟩)
  | some prompt =>
    match pyGetItem prompt "text" with
    | .error e => .error e
    | .ok prompt_content =>
      match pyGetItem prompt "mode" with
      | .error e => .error e
      | .ok painting_mode =>
        match lookupKV kvs "mask" with
        | none =>
          .ok (.inl ⟨400, get_cors_headers, .obj [("error", .str "Missing \"mask\" field")]⟩)
        | some maskRaw =>
          match stripDataUri maskRaw with
          | .error e => .error e
          | .ok mask_b64 =>
            match lookupKV kvs "base_image" with
            | none =>
              .ok (.inl ⟨400, get_cors_headers,
                .obj [("error", .str "Missing \"base_image\" field")]⟩)
            | some imageRaw =>
              match stripDataUri imageRaw with
              | .error e => .error e
              | .ok image_b64 =>
                .ok (.inr (prompt_content, painting_mode, mask_b64, image_b64, maskRaw, imageRaw))

/-- Lines 84–136 with the three `except` arms mapped over `getParams`:
`KeyError` (116), `IndexError` (123), generic `Exception` (130) — first
matching arm wins, exactly as Python orders them. -/
def extractParams (kvs : List (String × Json)) :
    Sum Response (Json × Json × Json × Json × Json × Json) :=
  match getParams kvs with
  | .ok r => r
  | .error (.keyError k) =>
    .inl ⟨400, get_cors_headers,
      .obj [("error", .str ("Missing required field: '" ++ k ++ "'")),
            ("body_structure", .str (keysRepr kvs))]⟩
  | .error (.indexError _) =>
    .inl ⟨400, get_cors_headers, .obj [("error", .str "Malformed base64 image data")]⟩
  | .error e =>
    .inl ⟨400, get_cors_headers,
      .obj [("error", .str ("Error extracting parameters: " ++ pyErrStr e))]⟩

/-- Lines 241–257: the generic `except` arm of the Bedrock `try`. The elapsed
time is taken from the ORIGINAL `start_time` (line 243). The
`log_to_dynamodb` call at line 246 is itself unprotected: if it raises, the
exception escapes the handler. -/
def exceptArm241 (env : Env) (model : String) (model_id : String)
    (prompt_content painting_mode : Json) (image_size mask_size : Nat)
    (error_message : String) : HResult :=
  let generation_time_ms := env.tFail - env.tStart
  match env.logRaise246 with
  | some m => ⟨.error (.raised m), []⟩
  | none =>
    ⟨.ok ⟨500, get_cors_headers,
       .obj [("error", .str error_message), ("model_attempted", .str model),
             ("request_id", .str env.requestId)]⟩,
     [⟨env.requestId, model_id, prompt_content, painting_mode, image_size, mask_size,
       0, generation_time_ms, false, some error_message⟩]⟩

/-- Lines 194–239: the body of the Bedrock `try`. Produces the success response
and the success audit record, or the exception the `except` arm will see. The
invoke-and-parse of lines 197–210 is the `Env.bedrock` oracle; the elapsed time
of line 207 is `tSuccess - tBedrockStart`. A raise from the success-path
`log_to_dynamodb` (line 217) is still inside this `try`. -/
def invokeTry (env : Env) (request_body model_id model : String)
    (prompt_content painting_mode : Json) (image_size mask_size : Nat) :
    Except PyError (Response × AuditRecord) :=
  match env.bedrock request_body model_id with
  | .error m => .error (.raised m)
  | .ok response_output =>
    let generation_time_ms := env.tSuccess - env.tBedrockStart
    match pyGetMethod response_output "images" with
    | .error e => .error e
    | .ok images =>
      let output_size := calculate_output_images_size images
      match env.logRaise217 with
      | some m => .error (.raised m)
      | none =>
        .ok (⟨200, get_cors_headers,
               .obj [("images", images), ("model_used", .str model),
                     ("request_id", .str env.requestId),
                     ("generation_time_ms", .num (Int.ofNat generation_time_ms))]⟩,
             ⟨env.requestId, model_id, prompt_content, painting_mode, image_size,
              mask_size, output_size, generation_time_ms, true, none⟩)

/-- Lines 194–257: the Bedrock `try`/`except` as a whole. -/
def invokeStage (env : Env) (request_body model_id model : String)
    (prompt_content painting_mode : Json) (image_size mask_size : Nat) : HResult :=
  match invokeTry env request_body model_id model prompt_content painting_mode
      image_size mask_size with
  | .ok (resp, rec) => ⟨.ok resp, [rec]⟩
  | .error e =>
    exceptArm241 env model model_id prompt_content painting_mode image_size mask_size
      (pyErrStr e)

/-- Lines 138–268, after field extraction succeeded (so the body is a dict
`kvs`). Line 139 (`body.get('model', 'titan').lower()`) and the failure-path
`log_to_dynamodb` calls at lines 150 and 175 are OUTSIDE every `try`: an
exception there escapes the handler. Line 140 reads `canvas_config`, which is
total and unused downstream. -/
def afterFields (env : Env) (kvs : List (String × Json))
    (prompt_content painting_mode mask_b64 image_b64 maskRaw imageRaw : Json) : HResult :=
  match pyLower (dictGet kvs "model" (.str "titan")) with
  | .error e => ⟨.error e, []⟩
  | .ok model =>
    let image_size := calculate_base64_size imageRaw
    let mask_size := calculate_base64_size maskRaw
    if model ≠ "titan" then
      let error_msg := "Unsupported model: " ++ model ++ ". Supported models: titan"
      match env.logRaise150 with
      | some m => ⟨.error (.raised m), []⟩
      | none =>
        ⟨.ok ⟨400, get_cors_headers, .obj [("error", .str error_msg)]⟩,
         [⟨env.requestId, "unknown", prompt_content, painting_mode, image_size,
           mask_size, 0, env.tModelFail - env.tStart, false, some error_msg⟩]⟩
    else
      match env.prepareTitan prompt_content painting_mode mask_b64 image_b64 with
      | .error emsg =>
        let error_msg := "Error preparing request for " ++ model ++ ": " ++ emsg
        match env.logRaise175 with
        | some m => ⟨.error (.raised m), []⟩
        | none =>
          ⟨.ok ⟨400, get_cors_headers, .obj [("error", .str error_msg)]⟩,
           [⟨env.requestId, "unknown", prompt_content, painting_mode, image_size,
             mask_size, 0, env.tBuildFail - env.tStart, false, some error_msg⟩]⟩
      | .ok request_body =>
        invokeStage env request_body "amazon.titan-image-generator-v2:0" model
          prompt_content painting_mode image_size mask_size

/-- The whole of `lambda_handler` (lines 25–268). A non-dict parsed body dies
at line 85 (`body.keys()` raises `AttributeError`, caught by the generic arm at
line 130). -/
def lambda_handler (env : Env) (event : List (String × Json)) : HResult :=
  match parseBody env event with
  | .inl resp => ⟨.ok resp, []⟩
  | .inr (Json.obj kvs) =>
    match extractParams kvs with
    | .inl resp => ⟨.ok resp, []⟩
    | .inr (pc, pm, mb, ib, maskRaw, imageRaw) =>
      afterFields env kvs pc pm mb ib maskRaw imageRaw
  | .inr other =>
    ⟨.ok ⟨400, get_cors_headers,
       .obj [("error", .str ("Error extracting parameters: '" ++ pyTypeName other
             ++ "' object has no attribute 'keys'"))]⟩, []⟩

/-! ## Spec-side definitions and concrete instances used by the theorems -/

/-- The predicate `c` is not a comma, as a Boolean. -/
def notComma (c : Char) : Bool := c != ','

/-- Everything after the FIRST comma of a character list (empty when there is
no comma). This is the spec's wording of the stripping step. -/
def afterFirstComma : List Char → List Char
  | [] => []
  | c :: rest => if c = ',' then rest else afterFirstComma rest

/-- The normalizer exactly as the SPEC words it (§4.2): if the field contains a
comma, the substring after the first comma — the ENTIRE remainder; otherwise
the field unchanged. Stated for comparison with the source's `stripDataUri`. -/
def stripSpecWords (s : String) : String :=
  if s.toList.contains ',' then String.mk (afterFirstComma s.toList) else s

/-- The value `stripDataUri` actually computes on a string (proved below):
the segment strictly between the first and second commas when the string
contains a comma, the string itself otherwise. -/
def stripStrFn (s : String) : String :=
  if s.toList.contains ','
  then String.mk ((afterFirstComma s.toList).takeWhile notComma)
  else s

/-- Does a response body (an object) carry the key `request_id`? -/
def bodyHasRequestId (r : Response) : Bool :=
  match r.body with
  | .obj kvs => kvs.any (fun kv => kv.1 == "request_id")
  | _ => false

/-- A concrete happy-path environment: logger always succeeds, build succeeds,
Bedrock returns one image. -/
def env0 : Env where
  requestId := "req-1"
  tStart := 0
  tModelFail := 5
  tBuildFail := 7
  tBedrockStart := 100
  tSuccess := 110
  tFail := 110
  jsonLoads := fun _ => .error (.decodeError "Expecting value")
  prepareTitan := fun _ _ _ _ => .ok "titan-request"
  bedrock := fun _ _ => .ok (.obj [("images", .arr [.str "b64out"])])
  logRaise150 := none
  logRaise175 := none
  logRaise217 := none
  logRaise246 := none

/-- `env0` with a Bedrock invocation that raises a transport error. -/
def env7 : Env := { env0 with bedrock := fun _ _ => .error "boom" }

/-- `env0` with a success-path logger call (line 217) that raises. -/
def env8 : Env := { env0 with logRaise217 := some "log sink unavailable" }

/-- A fully valid event: prompt with text and mode, mask and base image as raw
base64 strings, no explicit model (defaults to titan). -/
def validEvent : List (String × Json) :=
  [("body", Json.obj
    [("prompt", Json.obj [("text", Json.str "a cat"), ("mode", Json.str "INPAINTING")]),
     ("mask", Json.str "bWFzaw=="),
     ("base_image", Json.str "aW1n")])]

/-- A valid event except that `model` is the number 5 (not a string). -/
def badModelTypeEvent : List (String × Json) :=
  [("body", Json.obj
    [("prompt", Json.obj [("text", Json.str "a cat"), ("mode", Json.str "INPAINTING")]),
     ("mask", Json.str "bWFzaw=="),
     ("base_image", Json.str "aW1n"),
     ("model", Json.num 5)])]

/-- A valid event except that `model` is the unsupported string "gpt". -/
def gptModelEvent : List (String × Json) :=
  [("body", Json.obj
    [("prompt", Json.obj [("text", Json.str "a cat"), ("mode", Json.str "INPAINTING")]),
     ("mask", Json.str "bWFzaw=="),
     ("base_image", Json.str "aW1n"),
     ("model", Json.str "gpt")])]

/-- An event whose body has a well-formed prompt but no `mask` key. -/
def maskMissingEvent : List (String × Json) :=
  [("body", Json.obj
    [("prompt", Json.obj [("text", Json.str "a"), ("mode", Json.str "I")])])]

/-! ## Lemmas about the comma split and the data-URI stripping -/

/-- The first segment of `pySplitComma` is the longest comma-free prefix. -/
theorem pySplitComma_head (s : List Char) :
    ∃ t, pySplitComma s = s.takeWhile notComma :: t := by
  induction s with
  | nil => exact ⟨[], rfl⟩
  | cons c rest ih =>
    obtain ⟨t, ht⟩ := ih
    by_cases hc : c = ','
    · subst hc
      exact ⟨rest.takeWhile notComma :: t, by simp [pySplitComma, ht, notComma]⟩
    · exact ⟨t, by simp [pySplitComma, ht, List.takeWhile_cons, notComma, hc]⟩

/-- When the list contains a comma, the second segment of `pySplitComma` is the
longest comma-free prefix of what follows the first comma. -/
theorem pySplitComma_second (s : List Char) (h : ',' ∈ s) :
    ∃ t, pySplitComma s =
      s.takeWhile notComma :: (afterFirstComma s).takeWhile notComma :: t := by
  induction s with
  | nil => cases h
  | cons c rest ih =>
    by_cases hc : c = ','
    · subst hc
      obtain ⟨t, ht⟩ := pySplitComma_head rest
      exact ⟨t, by simp [pySplitComma, ht, afterFirstComma, notComma]⟩
    · have hr : ',' ∈ rest := by
        cases h with
        | head => exact absurd rfl hc
        | tail _ h2 => exact h2
      obtain ⟨t, ht⟩ := ih hr
      exact ⟨t, by simp [pySplitComma, ht, afterFirstComma, List.takeWhile_cons, notComma, hc]⟩

/-- On strings, the stripping of lines 105/114 never raises: it yields the
segment strictly between the first and the second comma (the whole remainder
when no second comma exists), or the string unchanged when it has no comma. -/
theorem stripDataUri_str (s : String) :
    stripDataUri (Json.str s) =
      Except.ok (Json.str (if s.toList.contains ','
        then String.mk ((afterFirstComma s.toList).takeWhile notComma)
        else s)) := by
  by_cases h : ',' ∈ s.toList
  · obtain ⟨t, ht⟩ := pySplitComma_second s.toList h
    simp only [String.toList] at ht h
    simp [stripDataUri, pyInComma, h, ht]
  · have h2 := h
    simp only [String.toList] at h2
    simp [stripDataUri, pyInComma, h2]

/-- No comma survives `takeWhile notComma`. -/
theorem notMem_takeWhile_notComma (l : List Char) : ',' ∉ l.takeWhile notComma := by
  intro h
  have h2 := List.mem_takeWhile_imp h
  simp [notComma] at h2

/-- A comma-free string passes through the stripping unchanged. -/
theorem stripDataUri_no_comma {s : String} (h : ',' ∉ s.toList) :
    stripDataUri (Json.str s) = Except.ok (Json.str s) := by
  have h2 := h
  simp only [String.toList] at h2
  simp [stripDataUri, pyInComma, h2]

/-- C4, as the claim states it, is FALSE: on `"x,AA,BB"` the source's
stripping (`split(",")[1]`) yields `"AA"`, while "the substring after the first
comma — the entire remainder" is `"AA,BB"`. -/
theorem C4_counterexample :
    stripDataUri (Json.str "x,AA,BB") = Except.ok (Json.str "AA") ∧
    stripSpecWords "x,AA,BB" = "AA,BB" ∧
    Except.ok (Json.str "AA") ≠ (Except.ok (Json.str "AA,BB") : Except PyError Json) := by
  refine ⟨rfl, rfl, ?_⟩
  intro h
  injection h with h2
  injection h2 with h3
  exact absurd h3 (by decide)

/-- C4 (amended): for every string field, if the field contains a comma the
stripping returns the segment strictly between the first and the second comma
(i.e. the substring after the first comma truncated at the next comma — the
entire remainder only when no second comma exists); otherwise it returns the
field unchanged, and it never raises on strings. -/
theorem C4_strip_between_commas (s : String) :
    stripDataUri (Json.str s) =
      Except.ok (Json.str (if s.toList.contains ','
        then String.mk ((afterFirstComma s.toList).takeWhile notComma)
        else s)) :=
  stripDataUri_str s

/-- C5: normalization is idempotent on every string — one application yields a
comma-free value, which a second application leaves unchanged — and the two
concrete examples of the spec: `"data:image/png;base64,AAAA"` normalizes to
`"AAAA"`, and `"AAAA"` normalizes to itself. -/
theorem C5_strip_idempotent :
    (∀ s : String, ∃ t : String,
        stripDataUri (Json.str s) = Except.ok (Json.str t) ∧
        stripDataUri (Json.str t) = Except.ok (Json.str t)) ∧
    stripDataUri (Json.str "data:image/png;base64,AAAA") = Except.ok (Json.str "AAAA") ∧
    stripDataUri (Json.str "AAAA") = Except.ok (Json.str "AAAA") := by
  refine ⟨?_, rfl, rfl⟩
  intro s
  by_cases h : s.toList.contains ','
  · refine ⟨String.mk ((afterFirstComma s.toList).takeWhile notComma), ?_, ?_⟩
    · rw [stripDataUri_str s, if_pos h]
    · exact stripDataUri_no_comma (notMem_takeWhile_notComma _)
  · refine ⟨s, ?_, ?_⟩
    · rw [stripDataUri_str s, if_neg h]
    · rw [stripDataUri_str s, if_neg h]

/-! ## At most one audit record per invocation -/

/-- The `except` arm at line 241 writes at most one record. -/
theorem exceptArm241_records_le (env : Env) (model model_id : String)
    (pc pm : Json) (isz msz : Nat) (em : String) :
    (exceptArm241 env model model_id pc pm isz msz em).records.length ≤ 1 := by
  unfold exceptArm241
  cases env.logRaise246 <;> simp

/-- The whole Bedrock `try`/`except` writes at most one record. -/
theorem invokeStage_records_le (env : Env) (rb mid model : String)
    (pc pm : Json) (isz msz : Nat) :
    (invokeStage env rb mid model pc pm isz msz).records.length ≤ 1 := by
  unfold invokeStage
  cases h : invokeTry env rb mid model pc pm isz msz with
  | ok pr =>
    obtain ⟨resp, rec⟩ := pr
    simp
  | error e => exact exceptArm241_records_le env model mid pc pm isz msz (pyErrStr e)

/-- Everything after field extraction writes at most one record. -/
theorem afterFields_records_le (env : Env) (kvs : List (String × Json))
    (pc pm mb ib mr ir : Json) :
    (afterFields env kvs pc pm mb ib mr ir).records.length ≤ 1 := by
  unfold afterFields
  cases pyLower (dictGet kvs "model" (Json.str "titan")) with
  | error e => simp
  | ok model =>
    by_cases hm : model = "titan"
    · simp only [hm, ne_eq, not_true_eq_false, if_false]
      cases env.prepareTitan pc pm mb ib with
      | error emsg => cases env.logRaise175 <;> simp
      | ok rb =>
        exact invokeStage_records_le env rb "amazon.titan-image-generator-v2:0" "titan" pc pm
          (calculate_base64_size ir) (calculate_base64_size mr)
    · simp only [ne_eq, hm, not_false_eq_true, if_true]
      cases env.logRaise150 <;> simp

/-- C1, as the claim states it, is FALSE: this processing attempt (a dict body
with no `prompt` key) exits through the validation-failure path with a 400
response and writes NO audit record at all. -/
theorem C1_counterexample :
    (lambda_handler env0 [("body", Json.obj [])]).records = [] ∧
    (lambda_handler env0 [("body", Json.obj [])]).outcome =
      Except.ok ⟨400, get_cors_headers,
        Json.obj [("error", Json.str "Missing \"prompt\" field"),
                  ("received_keys", Json.arr [])]⟩ :=
  ⟨rfl, rfl⟩

/-- C1 (amended): every invocation of the handler writes AT MOST one audit
record — there is never a duplicate — but not exactly one on every exit path:
validation failures before model resolution write none (see the
counterexample), and a record is written on the unsupported-model, build-failure,
invoker-failure and success paths exactly when the corresponding logger call
does not itself raise. -/
theorem C1_at_most_one_record (env : Env) (event : List (String × Json)) :
    (lambda_handler env event).records.length ≤ 1 := by
  unfold lambda_handler
  split
  · simp
  · split
    · simp
    · exact afterFields_records_le _ _ _ _ _ _ _ _
  · simp

/-! ## No uncaught exception, under conditions (C3) -/

/-- Everything after field extraction returns a structured response — no
uncaught exception — PROVIDED the `model` field is absent or a string and the
unprotected logger call sites (lines 150, 175, 246) do not raise. -/
theorem afterFields_ok (env : Env) (kvs : List (String × Json)) (pc pm mb ib mr ir : Json)
    (hm : lookupKV kvs "model" = none ∨ ∃ s, lookupKV kvs "model" = some (Json.str s))
    (h150 : env.logRaise150 = none) (h175 : env.logRaise175 = none)
    (h246 : env.logRaise246 = none) :
    ∃ resp, (afterFields env kvs pc pm mb ib mr ir).outcome = Except.ok resp := by
  unfold afterFields
  cases hml : pyLower (dictGet kvs "model" (Json.str "titan")) with
  | error e =>
    exfalso
    rcases hm with h | ⟨s, h⟩ <;> simp [dictGet, h, pyLower] at hml
  | ok model =>
    by_cases hm2 : model = "titan"
    · simp only [hm2, ne_eq, not_true_eq_false, if_false]
      cases env.prepareTitan pc pm mb ib with
      | error emsg =>
        simp only [h175]
        exact ⟨_, rfl⟩
      | ok rb =>
        simp only [invokeStage]
        cases invokeTry env rb "amazon.titan-image-generator-v2:0" "titan" pc pm
            (calculate_base64_size ir) (calculate_base64_size mr) with
        | ok pr =>
          obtain ⟨resp, rec⟩ := pr
          exact ⟨resp, rfl⟩
        | error e =>
          simp only [exceptArm241, h246]
          exact ⟨_, rfl⟩
    · simp only [ne_eq, hm2, not_false_eq_true, if_true]
      simp only [h150]
      exact ⟨_, rfl⟩

/-- C3, as the claim states it, is FALSE: on a well-formed body whose `model`
field is the number 5, line 139 (`body.get('model', 'titan').lower()`) raises
an `AttributeError` outside every `try`, and the exception escapes the handler
uncaught instead of becoming a structured response. -/
theorem C3_counterexample :
    (lambda_handler env0 badModelTypeEvent).outcome =
      Except.error (PyError.attributeError "'int' object has no attribute 'lower'") :=
  rfl

/-- C3 (amended): failures in body parsing, field extraction and the whole
generation/invocation stage are caught and converted to structured responses;
but model resolution and the failure-path / post-failure logging calls are
outside every `try`. If the `model` field of a dict body is absent or a string
and the logger calls at lines 150, 175 and 246 do not raise, then no exception
escapes the handler (the success-path logger at line 217 may even raise — that
exception is caught by the generic arm at line 241). -/
theorem C3_no_uncaught (env : Env) (event : List (String × Json))
    (hparse : ∀ kvs, parseBody env event = Sum.inr (Json.obj kvs) →
      lookupKV kvs "model" = none ∨ ∃ s, lookupKV kvs "model" = some (Json.str s))
    (h150 : env.logRaise150 = none) (h175 : env.logRaise175 = none)
    (h246 : env.logRaise246 = none) :
    ∃ resp, (lambda_handler env event).outcome = Except.ok resp := by
  unfold lambda_handler
  split
  · exact ⟨_, rfl⟩
  · rename_i kvs heq
    split
    · exact ⟨_, rfl⟩
    · rename_i pc pm mb ib mr ir heq2
      exact afterFields_ok env kvs pc pm mb ib mr ir (hparse kvs heq) h150 h175 h246
  · exact ⟨_, rfl⟩

/-- Witness for C3 (amended), at the concrete valid event and environment. -/
theorem C3_witness :
    ∃ resp, (lambda_handler env0 validEvent).outcome = Except.ok resp :=
  C3_no_uncaught env0 validEvent
    (fun kvs h => by
      injection h with h1
      injection h1 with h2
      subst h2
      exact Or.inl rfl)
    rfl rfl rfl

/-! ## Evaluation lemmas for the valid-body path -/

/-- `stripDataUri` on strings, phrased with `stripStrFn`. -/
theorem stripDataUri_str_fn (s : String) :
    stripDataUri (Json.str s) = Except.ok (Json.str (stripStrFn s)) :=
  stripDataUri_str s

/-- Field extraction on a dict body with a well-formed prompt, a string mask
and a string base image succeeds and returns the stripped and the raw values. -/
theorem extractParams_valid (kvs pkvs : List (String × Json)) (pt pm : Json) (ms im : String)
    (hp : lookupKV kvs "prompt" = some (Json.obj pkvs))
    (ht : lookupKV pkvs "text" = some pt)
    (hmo : lookupKV pkvs "mode" = some pm)
    (hma : lookupKV kvs "mask" = some (Json.str ms))
    (hb : lookupKV kvs "base_image" = some (Json.str im)) :
    extractParams kvs = Sum.inr (pt, pm, Json.str (stripStrFn ms), Json.str (stripStrFn im),
      Json.str ms, Json.str im) := by
  simp only [extractParams, getParams, hp, ht, hmo, hma, hb, pyGetItem, stripDataUri_str_fn]

/-- The handler on an event carrying a dict body, reduced one stage. -/
theorem lambda_handler_obj (env : Env) (kvs : List (String × Json)) :
    lambda_handler env [("body", Json.obj kvs)] =
      (match extractParams kvs with
       | .inl resp => ⟨.ok resp, []⟩
       | .inr (pc, pm, mb, ib, mr, ir) => afterFields env kvs pc pm mb ib mr ir) :=
  rfl

/-! ## C2: missing required fields -/

/-- C2, as the claim states it, is FALSE in its audit-record half: a body with
a well-formed prompt but no `mask` key gets the correct 400 response, yet NO
audit record (the claim demands exactly one with `success=false`). -/
theorem C2_counterexample :
    (lambda_handler env0 maskMissingEvent).outcome =
      Except.ok ⟨400, get_cors_headers, Json.obj [("error", Json.str "Missing \"mask\" field")]⟩ ∧
    (lambda_handler env0 maskMissingEvent).records = [] :=
  ⟨rfl, rfl⟩

/-- C2 (amended): for a dict body missing `prompt`, `mask` or `base_image`
(each earlier field well-formed), the handler returns 400 with the message
identifying the missing field — and NO audit record is produced for the
attempt. -/
theorem C2_missing_field_no_record (env : Env) (kvs pkvs : List (String × Json))
    (pt pm : Json) (ms : String) :
    (lookupKV kvs "prompt" = none →
      lambda_handler env [("body", Json.obj kvs)] =
        ⟨Except.ok ⟨400, get_cors_headers,
          Json.obj [("error", Json.str "Missing \"prompt\" field"),
                    ("received_keys", keysJson kvs)]⟩, []⟩) ∧
    (lookupKV kvs "prompt" = some (Json.obj pkvs) →
     lookupKV pkvs "text" = some pt →
     lookupKV pkvs "mode" = some pm →
     lookupKV kvs "mask" = none →
      lambda_handler env [("body", Json.obj kvs)] =
        ⟨Except.ok ⟨400, get_cors_headers,
          Json.obj [("error", Json.str "Missing \"mask\" field")]⟩, []⟩) ∧
    (lookupKV kvs "prompt" = some (Json.obj pkvs) →
     lookupKV pkvs "text" = some pt →
     lookupKV pkvs "mode" = some pm →
     lookupKV kvs "mask" = some (Json.str ms) →
     lookupKV kvs "base_image" = none →
      lambda_handler env [("body", Json.obj kvs)] =
        ⟨Except.ok ⟨400, get_cors_headers,
          Json.obj [("error", Json.str "Missing \"base_image\" field")]⟩, []⟩) := by
  refine ⟨fun hp => ?_, fun hp ht hmo hma => ?_, fun hp ht hmo hma hb => ?_⟩
  · rw [lambda_handler_obj]
    simp only [extractParams, getParams, hp]
  · rw [lambda_handler_obj]
    simp only [extractParams, getParams, hp, ht, hmo, hma, pyGetItem]
  · rw [lambda_handler_obj]
    simp only [extractParams, getParams, hp, ht, hmo, hma, hb, pyGetItem, stripDataUri_str_fn]

/-- Witness for C2 (amended): the concrete mask-missing event. -/
theorem C2_witness :
    lambda_handler env0 [("body", Json.obj
        [("prompt", Json.obj [("text", Json.str "a"), ("mode", Json.str "I")])])] =
      ⟨Except.ok ⟨400, get_cors_headers,
        Json.obj [("error", Json.str "Missing \"mask\" field")]⟩, []⟩ :=
  (C2_missing_field_no_record env0
      [("prompt", Json.obj [("text", Json.str "a"), ("mode", Json.str "I")])]
      [("text", Json.str "a"), ("mode", Json.str "I")]
      (Json.str "a") (Json.str "I") "").2.1 rfl rfl rfl rfl

/-! ## C6: unsupported model -/

/-- C6: for a well-formed body whose resolved `model` value (lower-cased
string) is not `"titan"`, the handler returns 400 with a message containing
the offending resolved value, and exactly one failed audit record is written,
whose model id is the literal `"unknown"` — never a resolved model id —
provided the logger call at line 150 does not itself raise. -/
theorem C6_unsupported_model (env : Env) (kvs pkvs : List (String × Json))
    (pt pm : Json) (ms im mstr : String)
    (hp : lookupKV kvs "prompt" = some (Json.obj pkvs))
    (ht : lookupKV pkvs "text" = some pt)
    (hmo : lookupKV pkvs "mode" = some pm)
    (hma : lookupKV kvs "mask" = some (Json.str ms))
    (hb : lookupKV kvs "base_image" = some (Json.str im))
    (hmod : dictGet kvs "model" (Json.str "titan") = Json.str mstr)
    (hbad : strLower mstr ≠ "titan")
    (h150 : env.logRaise150 = none) :
    lambda_handler env [("body", Json.obj kvs)] =
      ⟨Except.ok ⟨400, get_cors_headers,
         Json.obj [("error",
           Json.str ("Unsupported model: " ++ strLower mstr ++ ". Supported models: titan"))]⟩,
       [{ requestId := env.requestId, modelId := "unknown", prompt := pt, mode := pm,
          imageSize := calculate_base64_size (Json.str im),
          maskSize := calculate_base64_size (Json.str ms),
          outputSize := 0, generationTimeMs := env.tModelFail - env.tStart,
          success := false,
          errorMessage :=
            some ("Unsupported model: " ++ strLower mstr ++ ". Supported models: titan") }]⟩ := by
  rw [lambda_handler_obj, extractParams_valid kvs pkvs pt pm ms im hp ht hmo hma hb]
  simp only []
  unfold afterFields
  simp only [hmod, pyLower, ne_eq, hbad, not_false_eq_true, if_true, h150]

/-- Witness for C6: the concrete event with `model = "gpt"`. -/
theorem C6_witness :
    lambda_handler env0 gptModelEvent =
      ⟨Except.ok ⟨400, get_cors_headers,
         Json.obj [("error",
           Json.str ("Unsupported model: " ++ strLower "gpt" ++ ". Supported models: titan"))]⟩,
       [{ requestId := env0.requestId, modelId := "unknown", prompt := Json.str "a cat",
          mode := Json.str "INPAINTING",
          imageSize := calculate_base64_size (Json.str "aW1n"),
          maskSize := calculate_base64_size (Json.str "bWFzaw=="),
          outputSize := 0, generationTimeMs := env0.tModelFail - env0.tStart,
          success := false,
          errorMessage :=
            some ("Unsupported model: " ++ strLower "gpt" ++ ". Supported models: titan") }]⟩ :=
  C6_unsupported_model env0
    [("prompt", Json.obj [("text", Json.str "a cat"), ("mode", Json.str "INPAINTING")]),
     ("mask", Json.str "bWFzaw=="), ("base_image", Json.str "aW1n"), ("model", Json.str "gpt")]
    [("text", Json.str "a cat"), ("mode", Json.str "INPAINTING")]
    (Json.str "a cat") (Json.str "INPAINTING") "bWFzaw==" "aW1n" "gpt"
    rfl rfl rfl rfl rfl rfl (by decide) rfl

/-! ## C7: which start point the generation time uses -/

/-- C7, as the claim states it, is FALSE on the invoker-failure outcome: with
`tStart = 0`, `tBedrockStart = 100`, `tFail = 110` and a raising invoker, the
audit record reports 110 ms (measured from the original request start), not the
10 ms that measuring from immediately before the invoker call would give. -/
theorem C7_counterexample :
    (lambda_handler env7 validEvent).records.map (fun r => r.generationTimeMs) = [110] ∧
    env7.tFail - env7.tStart = 110 ∧
    env7.tFail - env7.tBedrockStart = 10 ∧
    (110 : Nat) ≠ 10 :=
  ⟨rfl, rfl, rfl, by decide⟩

/-- C7 (amended): on the SUCCESS outcome the reported generation time is
measured from immediately before the invoker call (`tSuccess -
tBedrockStart`); on the invoker-FAILURE outcome it is measured from the
original request start (`tFail - tStart`), so normalization/validation
overhead is excluded only on success. -/
theorem C7_generation_time (env : Env) (kvs pkvs : List (String × Json)) (pt pm : Json)
    (ms im mstr rb : String)
    (hp : lookupKV kvs "prompt" = some (Json.obj pkvs))
    (ht : lookupKV pkvs "text" = some pt)
    (hmo : lookupKV pkvs "mode" = some pm)
    (hma : lookupKV kvs "mask" = some (Json.str ms))
    (hb : lookupKV kvs "base_image" = some (Json.str im))
    (hmod : dictGet kvs "model" (Json.str "titan") = Json.str mstr)
    (hml : strLower mstr = "titan")
    (hprep : ∀ a b c d, env.prepareTitan a b c d = Except.ok rb) :
    (∀ okvs : List (String × Json),
      (∀ a b, env.bedrock a b = Except.ok (Json.obj okvs)) →
      env.logRaise217 = none →
      (lambda_handler env [("body", Json.obj kvs)]).records.map (fun r => r.generationTimeMs)
        = [env.tSuccess - env.tBedrockStart]) ∧
    (∀ em : String,
      (∀ a b, env.bedrock a b = Except.error em) →
      env.logRaise246 = none →
      (lambda_handler env [("body", Json.obj kvs)]).records.map (fun r => r.generationTimeMs)
        = [env.tFail - env.tStart]) := by
  have hred : lambda_handler env [("body", Json.obj kvs)] =
      invokeStage env rb "amazon.titan-image-generator-v2:0" "titan" pt pm
        (calculate_base64_size (Json.str im)) (calculate_base64_size (Json.str ms)) := by
    rw [lambda_handler_obj, extractParams_valid kvs pkvs pt pm ms im hp ht hmo hma hb]
    simp only []
    unfold afterFields
    simp only [hmod, pyLower, hml, ne_eq, eq_self_iff_true, not_true_eq_false, if_false, hprep]
  constructor
  · intro okvs hbr h217
    rw [hred]
    simp only [invokeStage, invokeTry, hbr, pyGetMethod, h217, List.map_cons, List.map_nil]
  · intro em hbr h246
    rw [hred]
    simp only [invokeStage, invokeTry, hbr, exceptArm241, h246, pyErrStr, List.map_cons,
      List.map_nil]

/-- Witness for C7 (amended), at the concrete raising-invoker environment. -/
theorem C7_witness :
    (lambda_handler env7 validEvent).records.map (fun r => r.generationTimeMs)
      = [env7.tFail - env7.tStart] :=
  (C7_generation_time env7
      [("prompt", Json.obj [("text", Json.str "a cat"), ("mode", Json.str "INPAINTING")]),
       ("mask", Json.str "bWFzaw=="), ("base_image", Json.str "aW1n")]
      [("text", Json.str "a cat"), ("mode", Json.str "INPAINTING")]
      (Json.str "a cat") (Json.str "INPAINTING") "bWFzaw==" "aW1n" "titan" "titan-request"
      rfl rfl rfl rfl rfl rfl (by decide) (fun _ _ _ _ => rfl)).2
    "boom" (fun _ _ => rfl) rfl

/-! ## C9: invoker failure -/

/-- C9: when the body is valid (model resolving to titan) and the Bedrock
invocation raises with message `em`, the handler returns 500 whose `error`
field equals `em`, and exactly one audit record is written with
`success=false`, zero output size and the RESOLVED model id — provided the
logger call in the `except` arm (line 246) does not itself raise. -/
theorem C9_invoker_failure (env : Env) (kvs pkvs : List (String × Json)) (pt pm : Json)
    (ms im mstr rb em : String)
    (hp : lookupKV kvs "prompt" = some (Json.obj pkvs))
    (ht : lookupKV pkvs "text" = some pt)
    (hmo : lookupKV pkvs "mode" = some pm)
    (hma : lookupKV kvs "mask" = some (Json.str ms))
    (hb : lookupKV kvs "base_image" = some (Json.str im))
    (hmod : dictGet kvs "model" (Json.str "titan") = Json.str mstr)
    (hml : strLower mstr = "titan")
    (hprep : ∀ a b c d, env.prepareTitan a b c d = Except.ok rb)
    (hbr : ∀ a b, env.bedrock a b = Except.error em)
    (h246 : env.logRaise246 = none) :
    lambda_handler env [("body", Json.obj kvs)] =
      ⟨Except.ok ⟨500, get_cors_headers,
         Json.obj [("error", Json.str em), ("model_attempted", Json.str "titan"),
                   ("request_id", Json.str env.requestId)]⟩,
       [{ requestId := env.requestId, modelId := "amazon.titan-image-generator-v2:0",
          prompt := pt, mode := pm,
          imageSize := calculate_base64_size (Json.str im),
          maskSize := calculate_base64_size (Json.str ms),
          outputSize := 0, generationTimeMs := env.tFail - env.tStart, success := false,
          errorMessage := some em }]⟩ := by
  rw [lambda_handler_obj, extractParams_valid kvs pkvs pt pm ms im hp ht hmo hma hb]
  simp only []
  unfold afterFields
  simp only [hmod, pyLower, hml, ne_eq, eq_self_iff_true, not_true_eq_false, if_false, hprep,
    invokeStage, invokeTry, hbr, exceptArm241, h246, pyErrStr]

/-- Witness for C9, at the concrete raising-invoker environment. -/
theorem C9_witness :
    lambda_handler env7 validEvent =
      ⟨Except.ok ⟨500, get_cors_headers,
         Json.obj [("error", Json.str "boom"), ("model_attempted", Json.str "titan"),
                   ("request_id", Json.str env7.requestId)]⟩,
       [{ requestId := env7.requestId, modelId := "amazon.titan-image-generator-v2:0",
          prompt := Json.str "a cat", mode := Json.str "INPAINTING",
          imageSize := calculate_base64_size (Json.str "aW1n"),
          maskSize := calculate_base64_size (Json.str "bWFzaw=="),
          outputSize := 0, generationTimeMs := env7.tFail - env7.tStart, success := false,
          errorMessage := some "boom" }]⟩ :=
  C9_invoker_failure env7
    [("prompt", Json.obj [("text", Json.str "a cat"), ("mode", Json.str "INPAINTING")]),
     ("mask", Json.str "bWFzaw=="), ("base_image", Json.str "aW1n")]
    [("text", Json.str "a cat"), ("mode", Json.str "INPAINTING")]
    (Json.str "a cat") (Json.str "INPAINTING") "bWFzaw==" "aW1n" "titan" "titan-request" "boom"
    rfl rfl rfl rfl rfl rfl (by decide) (fun _ _ _ _ => rfl) (fun _ _ => rfl) rfl

/-! ## C8: logger failure on the success path -/

/-- C8 names a real code bug: the generation SUCCEEDS (the invoker returns an
image), only the success-path `log_to_dynamodb` (line 217) raises — yet the
handler returns 500 carrying the logger's message, not the 200 success
response, because that logging call sits inside the generic Bedrock `try`.
Worse, the audit record written by the `except` arm claims `success=false`
with zero output size for a generation that succeeded. -/
theorem C8_logger_failure_overrides_success :
    (lambda_handler env8 validEvent).outcome =
      Except.ok ⟨500, get_cors_headers,
        Json.obj [("error", Json.str "log sink unavailable"),
                  ("model_attempted", Json.str "titan"),
                  ("request_id", Json.str "req-1")]⟩ ∧
    (lambda_handler env8 validEvent).records =
      [{ requestId := "req-1", modelId := "amazon.titan-image-generator-v2:0",
         prompt := Json.str "a cat", mode := Json.str "INPAINTING",
         imageSize := 3, maskSize := 4, outputSize := 0, generationTimeMs := 110,
         success := false, errorMessage := some "log sink unavailable" }] :=
  ⟨rfl, rfl⟩

/-! ## C10: where the request id appears -/

/-- Every early response of the body-parsing stage is a 400 without
`request_id`. -/
theorem parseBody_inl (env : Env) (event : List (String × Json)) (resp : Response) :
    parseBody env event = Sum.inl resp →
    resp.statusCode = 400 ∧ bodyHasRequestId resp = false := by
  unfold parseBody
  repeat' split
  all_goals intro h
  all_goals first
    | (injection h with h2; subst h2; exact ⟨rfl, rfl⟩)
    | (injection h)

/-- Every early response of `getParams` is a 400 without `request_id`. -/
theorem getParams_inl (kvs : List (String × Json)) (resp : Response) :
    getParams kvs = Except.ok (Sum.inl resp) →
    resp.statusCode = 400 ∧ bodyHasRequestId resp = false := by
  unfold getParams
  repeat' split
  all_goals intro h
  all_goals first
    | (injection h with h2; injection h2 with h3; subst h3; exact ⟨rfl, rfl⟩)
    | (injection h with h2; injection h2)
    | (injection h)

/-- Every error response of field extraction is a 400 without `request_id`. -/
theorem extractParams_inl (kvs : List (String × Json)) (resp : Response) :
    extractParams kvs = Sum.inl resp →
    resp.statusCode = 400 ∧ bodyHasRequestId resp = false := by
  unfold extractParams
  repeat' split
  all_goals intro h
  · rename_i r heq
    subst h
    exact getParams_inl kvs resp heq
  all_goals injection h with h2
  all_goals subst h2
  all_goals exact ⟨rfl, rfl⟩

/-- A success of the Bedrock `try` body always carries the 200 response with
the `request_id` field. -/
theorem invokeTry_ok_shape (env : Env) (rb mid model : String) (pc pm : Json)
    (isz msz : Nat) (r : Response) (rec : AuditRecord)
    (h : invokeTry env rb mid model pc pm isz msz = Except.ok (r, rec)) :
    ∃ images, r = ⟨200, get_cors_headers,
      Json.obj [("images", images), ("model_used", Json.str model),
                ("request_id", Json.str env.requestId),
                ("generation_time_ms", Json.num (Int.ofNat (env.tSuccess - env.tBedrockStart)))]⟩ := by
  unfold invokeTry at h
  cases hbr : env.bedrock rb mid with
  | error m => rw [hbr] at h; simp at h
  | ok out =>
    rw [hbr] at h
    simp only [] at h
    cases hg : pyGetMethod out "images" with
    | error e => rw [hg] at h; simp at h
    | ok images =>
      rw [hg] at h
      simp only [] at h
      cases h217 : env.logRaise217 with
      | some m => rw [h217] at h; simp at h
      | none =>
        rw [h217] at h
        simp only [Except.ok.injEq, Prod.mk.injEq] at h
        exact ⟨images, h.1.symm⟩

/-- After field extraction: a 400 response never carries `request_id`, a 200
or 500 response always does. -/
theorem afterFields_rid (env : Env) (kvs : List (String × Json))
    (pc pm mb ib mr ir : Json) (resp : Response)
    (h : (afterFields env kvs pc pm mb ib mr ir).outcome = Except.ok resp) :
    (resp.statusCode = 400 → bodyHasRequestId resp = false) ∧
    (resp.statusCode = 200 ∨ resp.statusCode = 500 → bodyHasRequestId resp = true) := by
  unfold afterFields at h
  cases hml : pyLower (dictGet kvs "model" (Json.str "titan")) with
  | error e => rw [hml] at h; simp at h
  | ok model =>
    rw [hml] at h
    simp only [] at h
    by_cases hm2 : model = "titan"
    · simp only [hm2, ne_eq, not_true_eq_false, if_false] at h
      cases hpt : env.prepareTitan pc pm mb ib with
      | error emsg =>
        rw [hpt] at h
        simp only [] at h
        cases h175 : env.logRaise175 with
        | some m => rw [h175] at h; simp at h
        | none =>
          rw [h175] at h
          simp only [Except.ok.injEq] at h
          subst h
          refine ⟨fun hc => rfl, fun hc => ?_⟩
          rcases hc with hc | hc <;> simp at hc
      | ok rb =>
        rw [hpt] at h
        simp only [invokeStage] at h
        cases hit : invokeTry env rb "amazon.titan-image-generator-v2:0" "titan" pc pm
            (calculate_base64_size ir) (calculate_base64_size mr) with
        | ok pr =>
          obtain ⟨r2, rec⟩ := pr
          rw [hit] at h
          simp only [Except.ok.injEq] at h
          subst h
          obtain ⟨images, hr⟩ := invokeTry_ok_shape env rb
            "amazon.titan-image-generator-v2:0" "titan" pc pm
            (calculate_base64_size ir) (calculate_base64_size mr) r2 rec hit
          subst hr
          refine ⟨fun hc => ?_, fun hc => rfl⟩
          simp at hc
        | error e =>
          rw [hit] at h
          simp only [exceptArm241] at h
          cases h246 : env.logRaise246 with
          | some m => rw [h246] at h; simp at h
          | none =>
            rw [h246] at h
            simp only [Except.ok.injEq] at h
            subst h
            refine ⟨fun hc => ?_, fun hc => rfl⟩
            simp at hc
    · simp only [ne_eq, hm2, not_false_eq_true, if_true] at h
      cases h150 : env.logRaise150 with
      | some m => rw [h150] at h; simp at h
      | none =>
        rw [h150] at h
        simp only [Except.ok.injEq] at h
        subst h
        refine ⟨fun hc => rfl, fun hc => ?_⟩
        rcases hc with hc | hc <;> simp at hc

/-- C10: the request identifier appears in the response body exactly on the
success (200) and upstream-failure (500) responses; no 400 response body
(validation, unsupported model, or build failure) carries it, although an
identifier was generated for the attempt. -/
theorem C10_request_id_placement (env : Env) (event : List (String × Json)) (resp : Response)
    (h : (lambda_handler env event).outcome = Except.ok resp) :
    (resp.statusCode = 400 → bodyHasRequestId resp = false) ∧
    (resp.statusCode = 200 ∨ resp.statusCode = 500 → bodyHasRequestId resp = true) := by
  unfold lambda_handler at h
  cases hpb : parseBody env event with
  | inl r =>
    rw [hpb] at h
    simp only [Except.ok.injEq] at h
    subst h
    have h2 := parseBody_inl env event r hpb
    refine ⟨fun _ => h2.2, fun hc => ?_⟩
    rcases hc with hc | hc <;> rw [h2.1] at hc <;> simp at hc
  | inr body =>
    rw [hpb] at h
    cases body with
    | obj kvs =>
      simp only [] at h
      cases hex : extractParams kvs with
      | inl r =>
        rw [hex] at h
        simp only [Except.ok.injEq] at h
        subst h
        have h2 := extractParams_inl kvs r hex
        refine ⟨fun _ => h2.2, fun hc => ?_⟩
        rcases hc with hc | hc <;> rw [h2.1] at hc <;> simp at hc
      | inr params =>
        obtain ⟨pc, pm, mb, ib, mr, ir⟩ := params
        rw [hex] at h
        simp only [] at h
        exact afterFields_rid env kvs pc pm mb ib mr ir resp h
    | null =>
      simp only [Except.ok.injEq] at h
      subst h
      refine ⟨fun _ => rfl, fun hc => ?_⟩
      rcases hc with hc | hc <;> simp at hc
    | bool b =>
      simp only [Except.ok.injEq] at h
      subst h
      refine ⟨fun _ => rfl, fun hc => ?_⟩
      rcases hc with hc | hc <;> simp at hc
    | num n =>
      simp only [Except.ok.injEq] at h
      subst h
      refine ⟨fun _ => rfl, fun hc => ?_⟩
      rcases hc with hc | hc <;> simp at hc
    | str s =>
      simp only [Except.ok.injEq] at h
      subst h
      refine ⟨fun _ => rfl, fun hc => ?_⟩
      rcases hc with hc | hc <;> simp at hc
    | arr xs =>
      simp only [Except.ok.injEq] at h
      subst h
      refine ⟨fun _ => rfl, fun hc => ?_⟩
      rcases hc with hc | hc <;> simp at hc

/-- Witness for C10: the missing-body 400 response carries no `request_id`. -/
theorem C10_witness :
    bodyHasRequestId ⟨400, get_cors_headers,
      Json.obj [("error", Json.str "Missing body in request"),
                ("event_keys", Json.arr [])]⟩ = false :=
  (C10_request_id_placement env0 [] _ rfl).1 rfl
